import Mathlib

/-!
Shallow embedding of the CRISAP dashboard's deterministic scenario-data
generator (`generate_climate_data` and `generate_time_series` from
`crisap_GLOBAL_CLD_dashboard.py`), together with proofs about it.

Modelling decisions:
* The global `np.random` generator is explicit state (`GState`): a seed, a
  position counter, and a ghost trace of the draw requests issued since the
  last reseed.  `np.random.seed` resets seed, counter and trace.
* Actual pseudo-random values are abstracted by a `Sampler`: a function from
  (seed, position, request) to the drawn rational.  numpy's guarantee that
  `uniform(a, b)` lands in `[a, b]` becomes the `SamplerInRange` predicate.
* Python's builtin `hash` is runtime-dependent, so it is a parameter
  `pyhash : String → ℤ`; the code's `% 10000` is Python's nonnegative `%`.
* Python's `round` (banker's rounding, ties to even) is `pyRound` on ℚ.
* A Python `KeyError` from a dict lookup is `Option.none`.
-/

namespace Crisap

/-- A request issued to the pseudo-random generator. -/
inductive DrawSpec where
  | uniform (a b : ℚ)
  | normal (mu sigma : ℚ)
deriving DecidableEq

/-- Abstract source of pseudo-random values: seed → position → request → value. -/
def Sampler : Type := ℕ → ℕ → DrawSpec → ℚ

/-- State of the global `np.random` generator: current seed, position in the
stream, and a ghost trace of the requests issued since the last reseed. -/
structure GState where
  seed : ℕ
  idx : ℕ
  trace : List DrawSpec
deriving DecidableEq

/-- `np.random.seed(n)`: reset the global generator. -/
def seedG (n : ℕ) : GState := ⟨n, 0, []⟩

/-- One draw from the global generator. -/
def draw (om : Sampler) (spec : DrawSpec) (g : GState) : ℚ × GState :=
  (om g.seed g.idx spec, ⟨g.seed, g.idx + 1, g.trace ++ [spec]⟩)

/-- A sampler respecting numpy's range guarantee for `uniform(a, b)`. -/
def SamplerInRange (om : Sampler) : Prop :=
  ∀ (sd i : ℕ) (a b : ℚ), a ≤ b →
    a ≤ om sd i (DrawSpec.uniform a b) ∧ om sd i (DrawSpec.uniform a b) ≤ b

/-- `hash(s) % 10000` in Python: `%` with a positive modulus is nonnegative. -/
def pyhashMod (pyhash : String → ℤ) (s : String) : ℕ := ((pyhash s) % 10000).toNat

/-- Python's `round` to an integer: nearest integer, ties to even. -/
def pyRoundInt (q : ℚ) : ℤ :=
  if q - ⌊q⌋ < 1/2 then ⌊q⌋
  else if 1/2 < q - ⌊q⌋ then ⌊q⌋ + 1
  else if ⌊q⌋ % 2 = 0 then ⌊q⌋ else ⌊q⌋ + 1

/-- Python's `round(q, d)`. -/
def pyRound (q : ℚ) (d : ℕ) : ℚ := (pyRoundInt (q * 10 ^ d) : ℚ) / 10 ^ d

theorem le_pyRoundInt (x : ℚ) : ⌊x⌋ ≤ pyRoundInt x := by
  unfold pyRoundInt
  split_ifs <;> omega

theorem pyRoundInt_le (x : ℚ) : pyRoundInt x ≤ ⌊x⌋ + 1 := by
  unfold pyRoundInt
  split_ifs <;> omega

theorem pyRoundInt_intCast (n : ℤ) : pyRoundInt (n : ℚ) = n := by
  unfold pyRoundInt
  rw [Int.floor_intCast]
  norm_num

theorem pyRoundInt_mono {x y : ℚ} (h : x ≤ y) : pyRoundInt x ≤ pyRoundInt y := by
  rcases lt_or_eq_of_le (Int.floor_mono h) with hf | hf
  · calc pyRoundInt x ≤ ⌊x⌋ + 1 := pyRoundInt_le x
      _ ≤ ⌊y⌋ := by omega
      _ ≤ pyRoundInt y := le_pyRoundInt y
  · unfold pyRoundInt
    rw [hf]
    split_ifs <;> first | omega | linarith

theorem pyRound_mono {x y : ℚ} (d : ℕ) (h : x ≤ y) : pyRound x d ≤ pyRound y d := by
  unfold pyRound
  have hm : pyRoundInt (x * 10 ^ d) ≤ pyRoundInt (y * 10 ^ d) :=
    pyRoundInt_mono (mul_le_mul_of_nonneg_right h (by positivity))
  have hc : ((pyRoundInt (x * 10 ^ d) : ℤ) : ℚ) ≤ ((pyRoundInt (y * 10 ^ d) : ℤ) : ℚ) := by
    exact_mod_cast hm
  have hp : (0 : ℚ) < 10 ^ d := by positivity
  exact (div_le_div_iff_of_pos_right hp).mpr hc

theorem pyRound_div_pow (m : ℤ) (d : ℕ) : pyRound ((m : ℚ) / 10 ^ d) d = (m : ℚ) / 10 ^ d := by
  unfold pyRound
  rw [div_mul_cancel₀ _ (by positivity : ((10 : ℚ) ^ d) ≠ 0), pyRoundInt_intCast]

theorem pyRound_intCast (n : ℤ) (d : ℕ) : pyRound (n : ℚ) d = n := by
  unfold pyRound
  rw [show ((n : ℚ) * 10 ^ d) = ((n * 10 ^ d : ℤ) : ℚ) by push_cast; ring, pyRoundInt_intCast]
  push_cast
  rw [mul_div_assoc, div_self (by positivity : ((10 : ℚ) ^ d) ≠ 0), mul_one]

theorem pyRound_zero (d : ℕ) : pyRound 0 d = 0 := by
  have h := pyRound_intCast 0 d
  simpa using h

/-- The `scenario_multiplier` dict of both generator functions. -/
def scenario_multiplier : List (String × ℚ) :=
  [("RCP 2.6 (Low emissions)", 7/10),
   ("RCP 4.5 (Intermediate)", 1),
   ("RCP 8.5 (High emissions)", 3/2)]

/-- The `time_multiplier` dict of `generate_climate_data`. -/
def time_multiplier : List (String × ℚ) :=
  [("2030", 4/5), ("2050", 1), ("2070", 13/10), ("2100", 8/5)]

/-- The `country_list` offered by the sidebar (the fixed country enumeration). -/
def country_list : List String :=
  ["Ghana", "Nigeria", "Kenya", "South Africa", "Egypt", "Morocco", "Tanzania", "Ethiopia"]

/-- `generate_climate_data(country, region, timeframe, scenario)`.

The global generator state comes in as `g` and goes out updated; the function
reseeds before drawing, exactly as the Python code calls `np.random.seed`.
A `KeyError` on the multiplier dicts (line 126 of the source, evaluated before
any draw) is `none`.  The draws and dict entries appear in the source's
evaluation order: the economic-loss normal draw on line 127 happens before the
dict literal of lines 130-140. -/
def generate_climate_data (om : Sampler) (pyhash : String → ℤ)
    (country region timeframe scen : String) (g : GState) :
    Option (List (String × ℚ)) × GState :=
  let seed := pyhashMod pyhash (country ++ "_" ++ region ++ "_" ++ timeframe ++ "_" ++ scen)
  let g0 := seedG seed
  match List.lookup scen scenario_multiplier, List.lookup timeframe time_multiplier with
  | some sm, some tm =>
    let base_economic_loss : ℚ := (region.length : ℚ) * (5/2) * sm * tm
    let p1 := draw om (DrawSpec.normal 0 (1/5)) g0
    let economic_loss := pyRound (base_economic_loss * (1 + p1.1)) 2
    let p2 := draw om (DrawSpec.uniform (1/2) (9/2)) p1.2
    let p3 := draw om (DrawSpec.uniform (-30) 20) p2.2
    let p4 := draw om (DrawSpec.uniform 10 80) p3.2
    let p5 := draw om (DrawSpec.uniform 0 100) p4.2
    let p6 := draw om (DrawSpec.uniform 0 100) p5.2
    let p7 := draw om (DrawSpec.uniform (-30) 5) p6.2
    let p8 := draw om (DrawSpec.uniform 0 100) p7.2
    let p9 := draw om (DrawSpec.uniform 0 100) p8.2
    (some
      [("Temperature Increase", pyRound (p2.1 * sm * tm) 1),
       ("Precipitation Change", pyRound (p3.1 * sm * tm) 1),
       ("Sea Level Rise", pyRound (p4.1 * sm * tm) 1),
       ("Drought Risk", pyRound (p5.1 * sm * tm / 100) 2),
       ("Flood Risk", pyRound (p6.1 * sm * tm / 100) 2),
       ("Agricultural Yield Change", pyRound (p7.1 * sm * tm) 1),
       ("Economic Loss (billion USD)", max (1/10) economic_loss),
       ("Health Impact Index", pyRound (p8.1 * sm * tm / 100) 2),
       ("Water Stress Index", pyRound (p9.1 * sm * tm / 100) 2)], p9.2)
  | _, _ => (none, g0)

/-- `list(range(start, stop, 10))` in Python. -/
def pyRange10 (start stop : ℤ) : List ℤ :=
  (List.range ((stop - start + 9).toNat / 10)).map (fun k : ℕ => start + 10 * (k : ℤ))

/-- One list comprehension of `generate_time_series`: for each year, one draw
of `spec` from the global stream, combined with the year by `f`. -/
def seriesDraws (om : Sampler) (spec : DrawSpec) (f : ℤ → ℚ → ℚ) :
    List ℤ → GState → List ℚ × GState
  | [], g => ([], g)
  | y :: ys, g =>
    let p := draw om spec g
    let rest := seriesDraws om spec f ys p.2
    (f y p.1 :: rest.1, rest.2)

/-- The DataFrame produced by `generate_time_series`: the `Year` column and the
four metric columns. -/
structure TimeSeries where
  year : List ℤ
  temperature_change : List ℚ
  economic_impact : List ℚ
  agricultural_yield : List ℚ
  water_availability : List ℚ

/-- `generate_time_series(country, region, scenario, start_year, end_year)`.

Each metric column is a separate list comprehension over `years`, so the draws
for one metric across all years are consumed before the next metric's draws.
If the scenario is not in the dict, the comprehensions raise `KeyError`
(modelled as `none`) unless `years` is empty, in which case no lookup runs. -/
def generate_time_series (om : Sampler) (pyhash : String → ℤ)
    (country region scen : String) (start_year end_year : ℤ) (g : GState) :
    Option TimeSeries × GState :=
  let years := pyRange10 start_year (end_year + 1)
  let seed := pyhashMod pyhash (country ++ "_" ++ region ++ "_" ++ scen ++ "_timeseries")
  let g0 := seedG seed
  match List.lookup scen scenario_multiplier with
  | some m =>
    let temps := seriesDraws om (DrawSpec.uniform (1/10) (1/2))
      (fun year u => pyRound (u * m * ((year : ℚ) - 2020) / 10) 2) years g0
    let econs := seriesDraws om (DrawSpec.normal 0 (1/10))
      (fun year n => pyRound ((region.length : ℚ) * (1/5) * m * ((year : ℚ) - 2020) / 10 * (1 + n)) 2)
      years temps.2
    let agris := seriesDraws om (DrawSpec.uniform (1/2) 2)
      (fun year u => pyRound (100 - u * m * ((year : ℚ) - 2020) / 10) 1) years econs.2
    let waters := seriesDraws om (DrawSpec.uniform (1/5) (3/2))
      (fun year u => pyRound (100 - u * m * ((year : ℚ) - 2020) / 10) 1) years agris.2
    (some ⟨years, temps.1, econs.1, agris.1, waters.1⟩, waters.2)
  | none =>
    (if years = [] then some ⟨years, [], [], [], []⟩ else none, g0)

/-- Sampler returning the lower end of every uniform range and 0 for normals. -/
def sampler0 : Sampler := fun _ _ spec =>
  match spec with
  | DrawSpec.uniform a _ => a
  | DrawSpec.normal _ _ => 0

/-- Sampler returning the upper end of every uniform range and 0 for normals. -/
def samplerHi : Sampler := fun _ _ spec =>
  match spec with
  | DrawSpec.uniform _ b => b
  | DrawSpec.normal _ _ => 0

/-- A concrete stand-in for Python's runtime string hash. -/
def hash0 : String → ℤ := fun _ => 0

/-- A concrete incoming generator state. -/
def gInit : GState := seedG 0

theorem seriesDraws_length (om : Sampler) (spec : DrawSpec) (f : ℤ → ℚ → ℚ) :
    ∀ (ys : List ℤ) (g : GState), ((seriesDraws om spec f ys g).1).length = ys.length := by
  intro ys
  induction ys with
  | nil => intro g; rfl
  | cons y ys ih => intro g; simp [seriesDraws, ih]

theorem seriesDraws_state (om : Sampler) (spec : DrawSpec) (f : ℤ → ℚ → ℚ) :
    ∀ (ys : List ℤ) (g : GState),
      (seriesDraws om spec f ys g).2 =
        ⟨g.seed, g.idx + ys.length, g.trace ++ List.replicate ys.length spec⟩ := by
  intro ys
  induction ys with
  | nil => intro g; cases g; simp [seriesDraws]
  | cons y ys ih =>
    intro g
    simp only [seriesDraws, draw, ih, List.replicate_succ, GState.mk.injEq,
      List.length_cons, List.append_assoc, List.singleton_append]
    refine ⟨?_, ?_, ?_⟩
    · trivial
    · omega
    · trivial

theorem seriesDraws_head (om : Sampler) (spec : DrawSpec) (f : ℤ → ℚ → ℚ)
    (y : ℤ) (ys : List ℤ) (g : GState) :
    ((seriesDraws om spec f (y :: ys) g).1).head? = some (f y (om g.seed g.idx spec)) := rfl

theorem mem_pyRange10 {start stop y : ℤ} :
    y ∈ pyRange10 start stop ↔
      ∃ k : ℕ, y = start + 10 * (k : ℤ) ∧ start + 10 * (k : ℤ) < stop := by
  simp only [pyRange10, List.mem_map, List.mem_range]
  constructor
  · rintro ⟨k, hk, rfl⟩
    exact ⟨k, rfl, by omega⟩
  · rintro ⟨k, rfl, hk⟩
    exact ⟨k, by omega, rfl⟩

theorem scenario_cases {s : String} {v : ℚ} (h : List.lookup s scenario_multiplier = some v) :
    v = 7/10 ∨ v = 1 ∨ v = 3/2 := by
  simp only [scenario_multiplier, List.lookup] at h
  repeat' split at h
  all_goals simp_all

theorem time_cases {t : String} {v : ℚ} (h : List.lookup t time_multiplier = some v) :
    v = 4/5 ∨ v = 1 ∨ v = 13/10 ∨ v = 8/5 := by
  simp only [time_multiplier, List.lookup] at h
  repeat' split at h
  all_goals simp_all

theorem multiplier_product_form {sm tm : ℚ}
    (hs : sm = 7/10 ∨ sm = 1 ∨ sm = 3/2)
    (ht : tm = 4/5 ∨ tm = 1 ∨ tm = 13/10 ∨ tm = 8/5) :
    0 ≤ sm * tm ∧ sm * tm ≤ 12/5 ∧ ∃ k : ℤ, sm * tm = (k : ℚ) / 10 ^ 2 := by
  rcases hs with rfl | rfl | rfl <;> rcases ht with rfl | rfl | rfl | rfl
  · exact ⟨by norm_num, by norm_num, 56, by norm_num⟩
  · exact ⟨by norm_num, by norm_num, 70, by norm_num⟩
  · exact ⟨by norm_num, by norm_num, 91, by norm_num⟩
  · exact ⟨by norm_num, by norm_num, 112, by norm_num⟩
  · exact ⟨by norm_num, by norm_num, 80, by norm_num⟩
  · exact ⟨by norm_num, by norm_num, 100, by norm_num⟩
  · exact ⟨by norm_num, by norm_num, 130, by norm_num⟩
  · exact ⟨by norm_num, by norm_num, 160, by norm_num⟩
  · exact ⟨by norm_num, by norm_num, 120, by norm_num⟩
  · exact ⟨by norm_num, by norm_num, 150, by norm_num⟩
  · exact ⟨by norm_num, by norm_num, 195, by norm_num⟩
  · exact ⟨by norm_num, by norm_num, 240, by norm_num⟩

theorem pyRound2_bound {x : ℚ} (k : ℤ) (h0 : 0 ≤ x) (h1 : x ≤ (k : ℚ) / 10 ^ 2) :
    0 ≤ pyRound x 2 ∧ pyRound x 2 ≤ (k : ℚ) / 10 ^ 2 := by
  constructor
  · have h := pyRound_mono 2 h0
    rwa [pyRound_zero] at h
  · have h := pyRound_mono 2 h1
    rwa [pyRound_div_pow] at h

theorem index_bound {sm tm u : ℚ} (k : ℤ) (hk : sm * tm = (k : ℚ) / 10 ^ 2)
    (hB : 0 ≤ sm * tm) (hu0 : 0 ≤ u) (hu1 : u ≤ 100) :
    0 ≤ pyRound (u * sm * tm / 100) 2 ∧ pyRound (u * sm * tm / 100) 2 ≤ sm * tm := by
  have h0 : 0 ≤ u * sm * tm / 100 := by
    have h := mul_nonneg hu0 hB
    rw [← mul_assoc] at h
    exact div_nonneg h (by norm_num)
  have h1 : u * sm * tm / 100 ≤ sm * tm := by
    rw [div_le_iff₀ (by norm_num : (0:ℚ) < 100)]
    calc u * sm * tm = u * (sm * tm) := by ring
      _ ≤ 100 * (sm * tm) := mul_le_mul_of_nonneg_right hu1 hB
      _ = sm * tm * 100 := by ring
  have hb := pyRound2_bound k h0 (h1.trans_eq hk)
  exact ⟨hb.1, hb.2.trans_eq hk.symm⟩

theorem sampler0_in_range : SamplerInRange sampler0 := by
  intro sd i a b hab
  exact ⟨le_refl a, hab⟩

theorem samplerHi_in_range : SamplerInRange samplerHi := by
  intro sd i a b hab
  exact ⟨hab, le_refl b⟩

/-- C1: both generator functions reseed the global generator from their
arguments before drawing, so the returned value is independent of the incoming
global generator state — two calls with identical inputs agree bit for bit no
matter what ran before, and no earlier call can influence a later one. -/
theorem c1_purity_determinism (om : Sampler) (pyhash : String → ℤ)
    (c r t s : String) (a b : ℤ) (g1 g2 : GState) :
    (generate_climate_data om pyhash c r t s g1).1 =
      (generate_climate_data om pyhash c r t s g2).1 ∧
    (generate_time_series om pyhash c r s a b g1).1 =
      (generate_time_series om pyhash c r s a b g2).1 :=
  ⟨rfl, rfl⟩

/-- C3 counterexample: at a concrete valid Selection, the per-call draw trace
of `generate_climate_data` is not the order claimed in the spec (the eight
uniforms first and the economic-loss normal draw ninth). -/
theorem c3_counterexample :
    ((generate_climate_data sampler0 hash0 "Ghana" "Ashanti" "2050"
        "RCP 4.5 (Intermediate)" gInit).2).trace ≠
      [DrawSpec.uniform (1/2) (9/2), DrawSpec.uniform (-30) 20, DrawSpec.uniform 10 80,
       DrawSpec.uniform 0 100, DrawSpec.uniform 0 100, DrawSpec.uniform (-30) 5,
       DrawSpec.uniform 0 100, DrawSpec.uniform 0 100, DrawSpec.normal 0 (1/5)] := by
  have hL : ((generate_climate_data sampler0 hash0 "Ghana" "Ashanti" "2050"
      "RCP 4.5 (Intermediate)" gInit).2).trace =
      [DrawSpec.normal 0 (1/5), DrawSpec.uniform (1/2) (9/2), DrawSpec.uniform (-30) 20,
       DrawSpec.uniform 10 80, DrawSpec.uniform 0 100, DrawSpec.uniform 0 100,
       DrawSpec.uniform (-30) 5, DrawSpec.uniform 0 100, DrawSpec.uniform 0 100] := rfl
  rw [hL]
  intro h
  exact absurd (List.head_eq_of_cons_eq h) (by intro hc; cases hc)

/-- C3 amended: for every valid Selection the nine draws are consumed in the
order normal(0, 0.2) first — the economic-loss draw on line 127 runs before
the dict literal — then the eight uniforms in the dict's field order:
Temperature, Precipitation, Sea Level, Drought, Flood, Agricultural Yield,
Health, Water. -/
theorem c3_amended_draw_order (om : Sampler) (pyhash : String → ℤ)
    (c r t s : String) (g : GState) {sm tm : ℚ}
    (hsm : List.lookup s scenario_multiplier = some sm)
    (htm : List.lookup t time_multiplier = some tm) :
    ((generate_climate_data om pyhash c r t s g).2).trace =
      [DrawSpec.normal 0 (1/5), DrawSpec.uniform (1/2) (9/2), DrawSpec.uniform (-30) 20,
       DrawSpec.uniform 10 80, DrawSpec.uniform 0 100, DrawSpec.uniform 0 100,
       DrawSpec.uniform (-30) 5, DrawSpec.uniform 0 100, DrawSpec.uniform 0 100] := by
  unfold generate_climate_data
  rw [hsm, htm]
  rfl

/-- Witness for C3's amended claim at a concrete valid Selection. -/
theorem c3_amended_draw_order_witness :
    ((generate_climate_data sampler0 hash0 "Ghana" "Ashanti" "2050"
        "RCP 4.5 (Intermediate)" gInit).2).trace =
      [DrawSpec.normal 0 (1/5), DrawSpec.uniform (1/2) (9/2), DrawSpec.uniform (-30) 20,
       DrawSpec.uniform 10 80, DrawSpec.uniform 0 100, DrawSpec.uniform 0 100,
       DrawSpec.uniform (-30) 5, DrawSpec.uniform 0 100, DrawSpec.uniform 0 100] :=
  c3_amended_draw_order sampler0 hash0 "Ghana" "Ashanti" "2050"
    "RCP 4.5 (Intermediate)" gInit rfl rfl

/-- C4 counterexample: at a concrete valid input, the time-series draw trace is
not grouped per year (Temperature, Economic, Agricultural, Water for 2020, then
for 2030, ...) as the spec claims. -/
theorem c4_counterexample :
    ((generate_time_series sampler0 hash0 "Ghana" "Ashanti" "RCP 4.5 (Intermediate)"
        2020 2100 gInit).2).trace ≠
      List.flatten (List.replicate 9
        [DrawSpec.uniform (1/10) (1/2), DrawSpec.normal 0 (1/10),
         DrawSpec.uniform (1/2) 2, DrawSpec.uniform (1/5) (3/2)]) := by
  have hR : List.flatten (List.replicate 9
      [DrawSpec.uniform (1/10) (1/2), (DrawSpec.normal 0 (1/10) : DrawSpec),
       DrawSpec.uniform (1/2) 2, DrawSpec.uniform (1/5) (3/2)]) =
      DrawSpec.uniform (1/10) (1/2) :: DrawSpec.normal 0 (1/10) ::
        DrawSpec.uniform (1/2) 2 :: DrawSpec.uniform (1/5) (3/2) ::
        List.flatten (List.replicate 8
          [DrawSpec.uniform (1/10) (1/2), DrawSpec.normal 0 (1/10),
           DrawSpec.uniform (1/2) 2, DrawSpec.uniform (1/5) (3/2)]) := rfl
  have hL : ((generate_time_series sampler0 hash0 "Ghana" "Ashanti"
      "RCP 4.5 (Intermediate)" 2020 2100 gInit).2).trace =
      DrawSpec.uniform (1/10) (1/2) :: DrawSpec.uniform (1/10) (1/2) ::
        ((generate_time_series sampler0 hash0 "Ghana" "Ashanti"
          "RCP 4.5 (Intermediate)" 2020 2100 gInit).2).trace.drop 2 := rfl
  rw [hL, hR]
  intro h
  have h2 := List.head_eq_of_cons_eq (List.tail_eq_of_cons_eq h)
  exact absurd h2 (by intro hc; cases hc)

/-- C4 amended: the time-series draws are consumed grouped per metric, not per
year: all Temperature Change draws (years ascending), then all Economic Impact
draws, then all Agricultural Yield draws, then all Water Availability draws —
each metric's list comprehension runs over the whole year range in turn. -/
theorem c4_amended_draw_order (om : Sampler) (pyhash : String → ℤ)
    (c r s : String) (a b : ℤ) (g : GState) {m : ℚ}
    (hsm : List.lookup s scenario_multiplier = some m) :
    ((generate_time_series om pyhash c r s a b g).2).trace =
      List.replicate (pyRange10 a (b + 1)).length (DrawSpec.uniform (1/10) (1/2)) ++
      List.replicate (pyRange10 a (b + 1)).length (DrawSpec.normal 0 (1/10)) ++
      List.replicate (pyRange10 a (b + 1)).length (DrawSpec.uniform (1/2) 2) ++
      List.replicate (pyRange10 a (b + 1)).length (DrawSpec.uniform (1/5) (3/2)) := by
  unfold generate_time_series
  rw [hsm]
  simp [seriesDraws_state, seriesDraws_length, seedG, List.append_assoc]

/-- Witness for C4's amended claim at a concrete valid input. -/
theorem c4_amended_draw_order_witness :
    ((generate_time_series sampler0 hash0 "Ghana" "Ashanti" "RCP 4.5 (Intermediate)"
        2020 2100 gInit).2).trace =
      List.replicate (pyRange10 2020 (2100 + 1)).length (DrawSpec.uniform (1/10) (1/2)) ++
      List.replicate (pyRange10 2020 (2100 + 1)).length (DrawSpec.normal 0 (1/10)) ++
      List.replicate (pyRange10 2020 (2100 + 1)).length (DrawSpec.uniform (1/2) 2) ++
      List.replicate (pyRange10 2020 (2100 + 1)).length (DrawSpec.uniform (1/5) (3/2)) :=
  c4_amended_draw_order sampler0 hash0 "Ghana" "Ashanti" "RCP 4.5 (Intermediate)"
    2020 2100 gInit rfl

/-- C7: the scenario multiplier table maps the low, intermediate and high RCP
labels to 0.7, 1.0, 1.5 and the time multiplier table maps 2030, 2050, 2070,
2100 to 0.8, 1.0, 1.3, 1.6; all entries are positive and both tables are
strictly increasing along their documented order. -/
theorem c7_multiplier_tables :
    List.lookup "RCP 2.6 (Low emissions)" scenario_multiplier = some (7/10) ∧
    List.lookup "RCP 4.5 (Intermediate)" scenario_multiplier = some 1 ∧
    List.lookup "RCP 8.5 (High emissions)" scenario_multiplier = some (3/2) ∧
    List.lookup "2030" time_multiplier = some (4/5) ∧
    List.lookup "2050" time_multiplier = some 1 ∧
    List.lookup "2070" time_multiplier = some (13/10) ∧
    List.lookup "2100" time_multiplier = some (8/5) ∧
    (∀ p ∈ scenario_multiplier, 0 < p.2) ∧
    (∀ p ∈ time_multiplier, 0 < p.2) ∧
    ((7 : ℚ)/10 < 1 ∧ (1 : ℚ) < 3/2) ∧
    ((4 : ℚ)/5 < 1 ∧ (1 : ℚ) < 13/10 ∧ (13 : ℚ)/10 < 8/5) := by
  refine ⟨rfl, rfl, rfl, rfl, rfl, rfl, rfl, ?_, ?_,
    ⟨by norm_num, by norm_num⟩, ⟨by norm_num, by norm_num, by norm_num⟩⟩
  · intro p hp
    simp only [scenario_multiplier, List.mem_cons, List.not_mem_nil, or_false] at hp
    rcases hp with rfl | rfl | rfl <;> norm_num
  · intro p hp
    simp only [time_multiplier, List.mem_cons, List.not_mem_nil, or_false] at hp
    rcases hp with rfl | rfl | rfl | rfl <;> norm_num

/-- C8 counterexample: a country outside the fixed country enumeration is never
looked up by the Point Estimator, which happily returns a snapshot instead of
failing. -/
theorem c8_counterexample :
    ("Atlantis" ∉ country_list) ∧
    ((generate_climate_data sampler0 hash0 "Atlantis" "Nowhere" "2050"
        "RCP 4.5 (Intermediate)" gInit).1).isSome = true := by
  constructor
  · decide
  · rfl

/-- C8 amended: the Point Estimator fails (dict `KeyError`, modelled `none`)
exactly when the scenario or the timeframe is outside its lookup tables; an
unrecognized country or region is not validated at all.  The Series Projector
fails exactly when the scenario is unrecognized and the year range is nonempty.
In particular, for inputs from the closed enumerations neither function has a
failure mode. -/
theorem c8_amended_fail_fast (om : Sampler) (pyhash : String → ℤ)
    (c r t s : String) (a b : ℤ) (g1 g2 : GState) :
    (((generate_climate_data om pyhash c r t s g1).1).isSome ↔
      (List.lookup s scenario_multiplier).isSome ∧
        (List.lookup t time_multiplier).isSome) ∧
    (((generate_time_series om pyhash c r s a b g2).1).isSome ↔
      ((List.lookup s scenario_multiplier).isSome ∨ pyRange10 a (b + 1) = [])) := by
  constructor
  · unfold generate_climate_data
    cases hs : List.lookup s scenario_multiplier <;>
      cases ht : List.lookup t time_multiplier <;> simp
  · unfold generate_time_series
    cases hs : List.lookup s scenario_multiplier
    · by_cases hy : pyRange10 a (b + 1) = [] <;> simp [hy]
    · simp

/-- C2: for every valid Selection, each of the eight drawn metrics equals
Python `round` of (a uniform draw from its stated range) scaled by
`scenario_multiplier * time_multiplier` (with the `/100` for the four indices),
at the stated precision, and the snapshot has exactly the nine named keys. -/
theorem c2_point_estimator_formulas (om : Sampler) (pyhash : String → ℤ)
    (c r t s : String) (g : GState) {sm tm : ℚ}
    (hsm : List.lookup s scenario_multiplier = some sm)
    (htm : List.lookup t time_multiplier = some tm)
    (hom : SamplerInRange om) :
    ∃ u1 u2 u3 u4 u5 u6 u7 u8 el : ℚ,
      (generate_climate_data om pyhash c r t s g).1 = some
        [("Temperature Increase", pyRound (u1 * sm * tm) 1),
         ("Precipitation Change", pyRound (u2 * sm * tm) 1),
         ("Sea Level Rise", pyRound (u3 * sm * tm) 1),
         ("Drought Risk", pyRound (u4 * sm * tm / 100) 2),
         ("Flood Risk", pyRound (u5 * sm * tm / 100) 2),
         ("Agricultural Yield Change", pyRound (u6 * sm * tm) 1),
         ("Economic Loss (billion USD)", el),
         ("Health Impact Index", pyRound (u7 * sm * tm / 100) 2),
         ("Water Stress Index", pyRound (u8 * sm * tm / 100) 2)] ∧
      Option.map (List.map Prod.fst) (generate_climate_data om pyhash c r t s g).1 =
        some ["Temperature Increase", "Precipitation Change", "Sea Level Rise",
          "Drought Risk", "Flood Risk", "Agricultural Yield Change",
          "Economic Loss (billion USD)", "Health Impact Index", "Water Stress Index"] ∧
      (1/2 ≤ u1 ∧ u1 ≤ 9/2) ∧ (-30 ≤ u2 ∧ u2 ≤ 20) ∧ (10 ≤ u3 ∧ u3 ≤ 80) ∧
      (0 ≤ u4 ∧ u4 ≤ 100) ∧ (0 ≤ u5 ∧ u5 ≤ 100) ∧ (-30 ≤ u6 ∧ u6 ≤ 5) ∧
      (0 ≤ u7 ∧ u7 ≤ 100) ∧ (0 ≤ u8 ∧ u8 ≤ 100) := by
  unfold generate_climate_data
  rw [hsm, htm]
  refine ⟨_, _, _, _, _, _, _, _, _, rfl, rfl,
    hom _ _ _ _ (by norm_num), hom _ _ _ _ (by norm_num), hom _ _ _ _ (by norm_num),
    hom _ _ _ _ (by norm_num), hom _ _ _ _ (by norm_num), hom _ _ _ _ (by norm_num),
    hom _ _ _ _ (by norm_num), hom _ _ _ _ (by norm_num)⟩

/-- Witness for C2 at a concrete valid Selection. -/
theorem c2_point_estimator_formulas_witness :
    ∃ u1 u2 u3 u4 u5 u6 u7 u8 el : ℚ,
      (generate_climate_data sampler0 hash0 "Ghana" "Ashanti" "2050"
          "RCP 4.5 (Intermediate)" gInit).1 = some
        [("Temperature Increase", pyRound (u1 * 1 * 1) 1),
         ("Precipitation Change", pyRound (u2 * 1 * 1) 1),
         ("Sea Level Rise", pyRound (u3 * 1 * 1) 1),
         ("Drought Risk", pyRound (u4 * 1 * 1 / 100) 2),
         ("Flood Risk", pyRound (u5 * 1 * 1 / 100) 2),
         ("Agricultural Yield Change", pyRound (u6 * 1 * 1) 1),
         ("Economic Loss (billion USD)", el),
         ("Health Impact Index", pyRound (u7 * 1 * 1 / 100) 2),
         ("Water Stress Index", pyRound (u8 * 1 * 1 / 100) 2)] ∧
      Option.map (List.map Prod.fst) (generate_climate_data sampler0 hash0 "Ghana"
          "Ashanti" "2050" "RCP 4.5 (Intermediate)" gInit).1 =
        some ["Temperature Increase", "Precipitation Change", "Sea Level Rise",
          "Drought Risk", "Flood Risk", "Agricultural Yield Change",
          "Economic Loss (billion USD)", "Health Impact Index", "Water Stress Index"] ∧
      (1/2 ≤ u1 ∧ u1 ≤ 9/2) ∧ (-30 ≤ u2 ∧ u2 ≤ 20) ∧ (10 ≤ u3 ∧ u3 ≤ 80) ∧
      (0 ≤ u4 ∧ u4 ≤ 100) ∧ (0 ≤ u5 ∧ u5 ≤ 100) ∧ (-30 ≤ u6 ∧ u6 ≤ 5) ∧
      (0 ≤ u7 ∧ u7 ≤ 100) ∧ (0 ≤ u8 ∧ u8 ≤ 100) :=
  c2_point_estimator_formulas sampler0 hash0 "Ghana" "Ashanti" "2050"
    "RCP 4.5 (Intermediate)" gInit rfl rfl sampler0_in_range

/-- C6: the Economic Loss field equals
`max(0.1, round(len(region) * 2.5 * scenario_multiplier * time_multiplier * (1 + n), 2))`
for the single normal(0, 0.2) draw `n`, and is therefore always at least 0.1. -/
theorem c6_economic_loss_bound (om : Sampler) (pyhash : String → ℤ)
    (c r t s : String) (g : GState) {sm tm : ℚ}
    (hsm : List.lookup s scenario_multiplier = some sm)
    (htm : List.lookup t time_multiplier = some tm) :
    ∃ l, (generate_climate_data om pyhash c r t s g).1 = some l ∧
      List.lookup "Economic Loss (billion USD)" l =
        some (max (1/10) (pyRound ((r.length : ℚ) * (5/2) * sm * tm *
          (1 + om (pyhashMod pyhash (c ++ "_" ++ r ++ "_" ++ t ++ "_" ++ s)) 0
            (DrawSpec.normal 0 (1/5)))) 2)) ∧
      ∀ v : ℚ, List.lookup "Economic Loss (billion USD)" l = some v → 1/10 ≤ v := by
  unfold generate_climate_data
  rw [hsm, htm]
  refine ⟨_, rfl, rfl, ?_⟩
  intro v hv
  have hv2 := Option.some.inj hv
  exact hv2 ▸ le_max_left (1/10) _

/-- Witness for C6 at a concrete valid Selection. -/
theorem c6_economic_loss_bound_witness :
    ∃ l, (generate_climate_data sampler0 hash0 "Ghana" "Ashanti" "2050"
        "RCP 4.5 (Intermediate)" gInit).1 = some l ∧
      List.lookup "Economic Loss (billion USD)" l =
        some (max (1/10) (pyRound ((("Ashanti".length : ℚ)) * (5/2) * 1 * 1 *
          (1 + sampler0 (pyhashMod hash0 ("Ghana" ++ "_" ++ "Ashanti" ++ "_" ++ "2050" ++
            "_" ++ "RCP 4.5 (Intermediate)")) 0 (DrawSpec.normal 0 (1/5)))) 2)) ∧
      ∀ v : ℚ, List.lookup "Economic Loss (billion USD)" l = some v → 1/10 ≤ v :=
  c6_economic_loss_bound sampler0 hash0 "Ghana" "Ashanti" "2050"
    "RCP 4.5 (Intermediate)" gInit rfl rfl

/-- C9: each of the four percentage-like indices lies in
`[0, scenario_multiplier * time_multiplier]` (a bound that is at most 2.4),
and no clamping to `[0, 1]` is applied: at the high-emission 2100 Selection a
sampler at the top of the uniform range makes Drought Risk equal 2.4 > 1. -/
theorem c9_index_value_range (om : Sampler) (pyhash : String → ℤ)
    (c r t s : String) (g : GState) {sm tm : ℚ}
    (hsm : List.lookup s scenario_multiplier = some sm)
    (htm : List.lookup t time_multiplier = some tm)
    (hom : SamplerInRange om) :
    (∃ l, (generate_climate_data om pyhash c r t s g).1 = some l ∧
      ∀ key ∈ (["Drought Risk", "Flood Risk", "Health Impact Index",
          "Water Stress Index"] : List String),
        ∀ v : ℚ, List.lookup key l = some v → 0 ≤ v ∧ v ≤ sm * tm) ∧
    sm * tm ≤ 12/5 ∧
    Option.bind (generate_climate_data samplerHi hash0 "Ghana" "Ashanti" "2100"
        "RCP 8.5 (High emissions)" gInit).1 (List.lookup "Drought Risk") =
      some (12/5) ∧
    (1 : ℚ) < 12/5 := by
  obtain ⟨hB0, hB24, k, hk⟩ := multiplier_product_form (scenario_cases hsm) (time_cases htm)
  refine ⟨?_, hB24, ?_, by norm_num⟩
  · unfold generate_climate_data
    rw [hsm, htm]
    refine ⟨_, rfl, ?_⟩
    intro key hkey v hv
    fin_cases hkey
    · obtain rfl := Option.some.inj hv
      have hu := hom (pyhashMod pyhash (c ++ "_" ++ r ++ "_" ++ t ++ "_" ++ s)) 4 0 100
        (by norm_num)
      exact index_bound k hk hB0 hu.1 hu.2
    · obtain rfl := Option.some.inj hv
      have hu := hom (pyhashMod pyhash (c ++ "_" ++ r ++ "_" ++ t ++ "_" ++ s)) 5 0 100
        (by norm_num)
      exact index_bound k hk hB0 hu.1 hu.2
    · obtain rfl := Option.some.inj hv
      have hu := hom (pyhashMod pyhash (c ++ "_" ++ r ++ "_" ++ t ++ "_" ++ s)) 7 0 100
        (by norm_num)
      exact index_bound k hk hB0 hu.1 hu.2
    · obtain rfl := Option.some.inj hv
      have hu := hom (pyhashMod pyhash (c ++ "_" ++ r ++ "_" ++ t ++ "_" ++ s)) 8 0 100
        (by norm_num)
      exact index_bound k hk hB0 hu.1 hu.2
  · show some (pyRound ((100 : ℚ) * (3/2) * (8/5) / 100) 2) = some (12/5)
    rw [show ((100 : ℚ) * (3/2) * (8/5) / 100) = ((240 : ℤ) : ℚ) / 10 ^ 2 by norm_num,
      pyRound_div_pow]
    norm_num

/-- Witness for C9 at a concrete valid Selection. -/
theorem c9_index_value_range_witness :
    (∃ l, (generate_climate_data sampler0 hash0 "Ghana" "Ashanti" "2050"
        "RCP 4.5 (Intermediate)" gInit).1 = some l ∧
      ∀ key ∈ (["Drought Risk", "Flood Risk", "Health Impact Index",
          "Water Stress Index"] : List String),
        ∀ v : ℚ, List.lookup key l = some v → 0 ≤ v ∧ v ≤ (1 : ℚ) * 1) ∧
    (1 : ℚ) * 1 ≤ 12/5 ∧
    Option.bind (generate_climate_data samplerHi hash0 "Ghana" "Ashanti" "2100"
        "RCP 8.5 (High emissions)" gInit).1 (List.lookup "Drought Risk") =
      some (12/5) ∧
    (1 : ℚ) < 12/5 :=
  c9_index_value_range sampler0 hash0 "Ghana" "Ashanti" "2050"
    "RCP 4.5 (Intermediate)" gInit rfl rfl sampler0_in_range

/-- C5: the Year column is `start_year, start_year + 10, ...` up to and
including `end_year` whenever it is reachable by the 10-year step, every metric
series has the same length as the Year column, and the default 2020-2100 range
yields exactly the 9 year points 2020, 2030, ..., 2100. -/
theorem c5_series_year_range (om : Sampler) (pyhash : String → ℤ)
    (c r s : String) (a b : ℤ) (g : GState) (ts : TimeSeries)
    (hts : (generate_time_series om pyhash c r s a b g).1 = some ts) :
    (∀ y : ℤ, y ∈ ts.year ↔ ∃ k : ℕ, y = a + 10 * (k : ℤ) ∧ y ≤ b) ∧
    ts.temperature_change.length = ts.year.length ∧
    ts.economic_impact.length = ts.year.length ∧
    ts.agricultural_yield.length = ts.year.length ∧
    ts.water_availability.length = ts.year.length ∧
    (a = 2020 → b = 2100 →
      ts.year = [2020, 2030, 2040, 2050, 2060, 2070, 2080, 2090, 2100]) := by
  have hyear : ts.year = pyRange10 a (b + 1) ∧
      ts.temperature_change.length = ts.year.length ∧
      ts.economic_impact.length = ts.year.length ∧
      ts.agricultural_yield.length = ts.year.length ∧
      ts.water_availability.length = ts.year.length := by
    revert hts
    unfold generate_time_series
    cases hs : List.lookup s scenario_multiplier with
    | some m =>
      intro hts
      obtain rfl := (Option.some.inj hts).symm
      refine ⟨rfl, ?_, ?_, ?_, ?_⟩ <;> simp [seriesDraws_length]
    | none =>
      intro hts
      by_cases hy : pyRange10 a (b + 1) = [] <;> simp [hy] at hts
      obtain rfl := hts.symm
      simp [hy]
  obtain ⟨hy, h1, h2, h3, h4⟩ := hyear
  refine ⟨?_, h1, h2, h3, h4, ?_⟩
  · intro y
    rw [hy, mem_pyRange10]
    constructor
    · rintro ⟨k, hk1, hk2⟩
      exact ⟨k, hk1, by omega⟩
    · rintro ⟨k, hk1, hk2⟩
      exact ⟨k, hk1, by omega⟩
  · rintro rfl rfl
    rw [hy]
    decide

/-- Witness for C5 at a concrete valid input. -/
theorem c5_series_year_range_witness :
    ∃ ts : TimeSeries,
      (generate_time_series sampler0 hash0 "Ghana" "Ashanti" "RCP 4.5 (Intermediate)"
          2020 2100 gInit).1 = some ts ∧
      ((∀ y : ℤ, y ∈ ts.year ↔ ∃ k : ℕ, y = 2020 + 10 * (k : ℤ) ∧ y ≤ 2100) ∧
       ts.temperature_change.length = ts.year.length ∧
       ts.economic_impact.length = ts.year.length ∧
       ts.agricultural_yield.length = ts.year.length ∧
       ts.water_availability.length = ts.year.length ∧
       ((2020 : ℤ) = 2020 → (2100 : ℤ) = 2100 →
         ts.year = [2020, 2030, 2040, 2050, 2060, 2070, 2080, 2090, 2100])) :=
  ⟨_, rfl, c5_series_year_range sampler0 hash0 "Ghana" "Ashanti"
    "RCP 4.5 (Intermediate)" 2020 2100 gInit _ rfl⟩

theorem pyRound_hundred (d : ℕ) : pyRound (100 : ℚ) d = 100 := by
  have h := pyRound_intCast 100 d
  exact_mod_cast h

/-- C10: with the default range starting at 2020, the first time-series entry
is degenerate — the time factor `(2020 - 2020) / 10` is zero, so Temperature
Change and Economic Impact are 0.0 and Agricultural Yield and Water
Availability are 100.0 — even though the four 2020 draws are still consumed
(the call consumes four draws per year point, 36 in total). -/
theorem c10_degenerate_first_point (om : Sampler) (pyhash : String → ℤ)
    (c r s : String) (g : GState) {m : ℚ}
    (hsm : List.lookup s scenario_multiplier = some m) :
    ∃ ts : TimeSeries,
      (generate_time_series om pyhash c r s 2020 2100 g).1 = some ts ∧
      ts.year.head? = some 2020 ∧
      ts.temperature_change.head? = some 0 ∧
      ts.economic_impact.head? = some 0 ∧
      ts.agricultural_yield.head? = some 100 ∧
      ts.water_availability.head? = some 100 ∧
      ts.year.length = 9 ∧
      ((generate_time_series om pyhash c r s 2020 2100 g).2).idx = 4 * 9 := by
  unfold generate_time_series
  rw [hsm]
  simp only [show pyRange10 2020 (2100 + 1) =
    2020 :: [2030, 2040, 2050, 2060, 2070, 2080, 2090, 2100] from by decide]
  refine ⟨_, rfl, rfl, ?_, ?_, ?_, ?_, rfl, ?_⟩
  · rw [seriesDraws_head]
    simp [pyRound_zero]
  · rw [seriesDraws_head]
    simp [pyRound_zero]
  · rw [seriesDraws_head]
    simp [pyRound_hundred]
  · rw [seriesDraws_head]
    simp [pyRound_hundred]
  · simp [seriesDraws_state, seedG]

/-- Witness for C10 at a concrete valid input. -/
theorem c10_degenerate_first_point_witness :
    ∃ ts : TimeSeries,
      (generate_time_series sampler0 hash0 "Ghana" "Ashanti"
          "RCP 4.5 (Intermediate)" 2020 2100 gInit).1 = some ts ∧
      ts.year.head? = some 2020 ∧
      ts.temperature_change.head? = some 0 ∧
      ts.economic_impact.head? = some 0 ∧
      ts.agricultural_yield.head? = some 100 ∧
      ts.water_availability.head? = some 100 ∧
      ts.year.length = 9 ∧
      ((generate_time_series sampler0 hash0 "Ghana" "Ashanti"
          "RCP 4.5 (Intermediate)" 2020 2100 gInit).2).idx = 4 * 9 :=
  c10_degenerate_first_point sampler0 hash0 "Ghana" "Ashanti"
    "RCP 4.5 (Intermediate)" gInit rfl

end Crisap
